import Mathlib

/-!
Verification of the model-factory core (`src/use-cases/add-model.js` and the
model-factory module concatenated with it): registry, enrichment pipeline,
event-naming protocol and the add-model use case.

JavaScript objects are embedded as association lists of string-keyed
attributes together with a `frozen` flag (`Object.freeze` semantics: writes
to a frozen object are silently ignored in non-strict mode).  Attribute
values are the closed set of value shapes the code manipulates: strings,
zero-argument accessor closures capturing a value, opaque function values
identified by a tag, numbers, and `undefined`.  Asynchronous functions that
may reject are embedded as `Except String`-valued functions; awaited
sequencing becomes monadic sequencing, so a rejection short-circuits exactly
like an `await` of a rejected promise.  Observable side effects (constructor
invocations, `repository.save`, `observer.notify`) are recorded in an
explicit trace list.  The identifier generator and the wall clock are the
injectable collaborators of the spec: the generator is modelled as a counter
threaded through the computation, the clock as a fixed timestamp string
(no claim inspects the timestamp's value, only the key it is stored under).
-/

/-- A JavaScript value as seen by the validators: either a string or some
non-string value (`undefined`, a number, an object, ...), which is all
`typeof x === 'string'` can distinguish. -/
inductive JSVal where
  | str (s : String)
  | other
deriving Repr, DecidableEq

/-- An attribute value stored in an object: a string, an accessor closure
returning a captured value, an opaque function value identified by a tag,
a number, or `undefined`. -/
inductive Attr where
  | str (s : String)
  | getter (a : Attr)
  | func (tag : String)
  | num (n : Nat)
  | undefVal
deriving Repr, DecidableEq

/-- JavaScript truthiness for the embedded attribute values. -/
def Attr.truthy : Attr → Bool
  | .str s => s ≠ ""
  | .getter _ => true
  | .func _ => true
  | .num n => n ≠ 0
  | .undefVal => false

/-- The view of an attribute value through `typeof`-style validation. -/
def Attr.toJS : Attr → JSVal
  | .str s => .str s
  | _ => .other

/-- A JavaScript object: own enumerable properties (first binding for a key
wins on lookup, so updates are prepended) plus a frozen flag. -/
structure Obj where
  attrs : List (String × Attr)
  frozen : Bool
deriving Repr, DecidableEq

/-- Property read `o[k]`: `none` plays the role of `undefined`. -/
def Obj.get (o : Obj) (k : String) : Option Attr :=
  (o.attrs.find? (fun p => p.1 == k)).map (fun p => p.2)

/-- Property read that yields `undefined` for a missing key, as JavaScript
destructuring does. -/
def Obj.getD (o : Obj) (k : String) : Attr :=
  (o.get k).getD .undefVal

/-- `Object.assign({}, o, upd)` and spread-merge `{...o, ...upd}`: a fresh,
unfrozen object whose `upd` bindings shadow those of `o`. -/
def Obj.merge (o : Obj) (upd : List (String × Attr)) : Obj :=
  ⟨upd ++ o.attrs, false⟩

/-- `Object.freeze(o)`. -/
def Obj.freeze (o : Obj) : Obj :=
  { o with frozen := true }

/-- Non-strict property assignment `o[k] = v`: silently ignored when the
object is frozen. -/
def Obj.setAttr (o : Obj) (k : String) (v : Attr) : Obj :=
  if o.frozen then o else ⟨(k, v) :: o.attrs, o.frozen⟩

/-- Dynamic zero-argument method call `o.k()`: succeeds exactly when the
property holds an accessor closure, returning the captured value; anything
else is a `TypeError` (a rejected promise in an async context). -/
def Obj.call0 (o : Obj) (k : String) : Except String Attr :=
  match o.get k with
  | some (.getter a) => .ok a
  | _ => .error ("TypeError: " ++ k ++ " is not a function")

/-- Modelled from the spec: `src/lib/uuid` (not under `src/`) is the
injectable identifier generator, "a zero-argument function returning a
fresh, globally-unique string or token each call"; it is embedded as a
function of the call counter threaded through the computation. -/
def uuid (n : Nat) : String :=
  "uuid-" ++ toString n

/-- Modelled from the spec: the wall clock (`new Date().toUTCString()`) is
an injectable collaborator; it is embedded as a fixed timestamp string.
No claim inspects the timestamp's value, only the key it is stored under. -/
def timeStamp : String :=
  "Thu, 01 Jan 2026 00:00:00 GMT"

/-- The closed set of event types (`EventTypes` object, in key order). -/
def EventTypes : List String :=
  ["CREATE", "UPDATE", "DELETE"]

/-- `checkModelName`: returns the uppercased name when the argument is a
string, otherwise throws `modelName missing or invalid`. -/
def checkModelName : JSVal → Except String String
  | .str s => .ok s.toUpper
  | .other => .error "modelName missing or invalid"

/-- `checkEventType`: uppercases a string argument and accepts it exactly
when it is one of the keys of `EventTypes`; otherwise throws. -/
def checkEventType : JSVal → Except String String
  | .str s =>
    if s.toUpper ∈ EventTypes then .ok s.toUpper
    else .error "eventType missing or invalid"
  | .other => .error "eventType missing or invalid"

/-- `createEventName(eventType, modelName)`: validates both arguments
(event type first, as the source evaluates left to right) and concatenates
the canonical forms with no separator. -/
def createEventName (eventType modelName : JSVal) : Except String String := do
  let et ← checkEventType eventType
  let mn ← checkModelName modelName
  return et ++ mn

/-- A pipeline stage: an attribute bag plus the generator counter, with the
possibility of a thrown `TypeError` (rejecting the surrounding promise). -/
abbrev Pipe := Obj × Nat → Except String (Obj × Nat)

/-- `addId`: calls the injected `generateId` attribute and assigns `id`
plus a `getId` accessor capturing the generated identifier. -/
def addId : Pipe := fun (o, n) =>
  match o.get "generateId" with
  | some (.func "uuid") =>
    let _id := uuid n
    .ok (o.merge [("id", .str _id), ("getId", .getter (.str _id))], n + 1)
  | _ => .error "TypeError: generateId is not a function"

/-- `addEventName`: recomputes the canonical event name from the bag's
`eventType` and `modelName` attributes and assigns `eventName` plus a
`getEventName` accessor. -/
def addEventName : Pipe := fun (o, n) =>
  match createEventName (o.getD "eventType").toJS (o.getD "modelName").toJS with
  | .ok name => .ok (o.merge [("eventName", .str name), ("getEventName", .getter (.str name))], n)
  | .error e => .error e

/-- `addModelName`: echoes the bag's `modelName` attribute and assigns a
`getModelName` accessor capturing it. -/
def addModelName : Pipe := fun (o, n) =>
  let mn := o.getD "modelName"
  .ok (o.merge [("modelName", mn), ("getModelName", .getter mn)], n)

/-- `addTimestamp`: stores the timestamp under `<eventType>Time`, the event
type defaulting to `CREATE` when the attribute is falsy (`eventType ||
EventTypes.CREATE`); calling `toLowerCase` on a truthy non-string is a
`TypeError`. -/
def addTimestamp : Pipe := fun (o, n) =>
  let e := o.getD "eventType"
  match (if e.truthy then e else .str "CREATE") with
  | .str s => .ok (o.merge [(s.toLower ++ "Time", .str timeStamp)], n)
  | _ => .error "TypeError: toLowerCase is not a function"

/-- Modelled from the spec: `src/lib/compose` (not under `src/`) is the
left-to-right composition of the decorator functions (spec §4.2: "The
pipeline is a left-to-right composition of pure, side-effect-free decorator
functions"). -/
def compose (fs : List Pipe) : Pipe := fun s =>
  fs.foldlM (fun a f => f a) s

/-- `enrichModel`: the model enrichment pipeline. -/
def enrichModel : Pipe :=
  compose [addId, addModelName, addTimestamp]

/-- `enrichEvent`: the event enrichment pipeline. -/
def enrichEvent : Pipe :=
  compose [addId, addEventName, addTimestamp]

/-- A registered constructor: an (awaited) function from an argument value
to an attribute bag, which may reject. -/
abbrev Factory := Obj → Except String Obj

/-- A value passed where a function is expected, as `typeof f === 'function'`
sees it. -/
inductive FnVal where
  | fn (f : Factory)
  | notFn

/-- `Map.prototype.get` on an insertion-ordered association list. -/
def AList.get? (m : List (String × Factory)) (k : String) : Option Factory :=
  (m.find? (fun p => p.1 == k)).map (fun p => p.2)

/-- `Map.prototype.has`. -/
def AList.has (m : List (String × Factory)) (k : String) : Bool :=
  (m.find? (fun p => p.1 == k)).isSome

/-- `Map.prototype.set`: overwrite in place, or append preserving insertion
order. -/
def AList.set (m : List (String × Factory)) (k : String) (v : Factory) :
    List (String × Factory) :=
  match m with
  | [] => [(k, v)]
  | (k', v') :: t => if k' == k then (k, v) :: t else (k', v') :: AList.set t k v

/-- The module-level registry state: the `modelFactories` map and the
`eventFactories` object holding one map per event type.  These are
module-level variables (`let modelFactories; let eventFactories`), shared by
every `ModelFactoryInstance`; the embedding makes that sharing explicit by
threading this single state through every operation, while instances
themselves hold no data. -/
structure FactoryState where
  modelFactories : List (String × Factory)
  eventsCREATE : List (String × Factory)
  eventsUPDATE : List (String × Factory)
  eventsDELETE : List (String × Factory)

/-- `eventFactories[eventType]`: only ever read after `checkEventType`, so
the value on other keys (JavaScript `undefined`) is never reached. -/
def FactoryState.events (s : FactoryState) (et : String) : List (String × Factory) :=
  if et = "CREATE" then s.eventsCREATE
  else if et = "UPDATE" then s.eventsUPDATE
  else if et = "DELETE" then s.eventsDELETE
  else []

/-- Write back `eventFactories[eventType]` after a `set`. -/
def FactoryState.setEvents (s : FactoryState) (et : String)
    (m : List (String × Factory)) : FactoryState :=
  if et = "CREATE" then { s with eventsCREATE := m }
  else if et = "UPDATE" then { s with eventsUPDATE := m }
  else if et = "DELETE" then { s with eventsDELETE := m }
  else s

/-- The state produced by `ModelFactoryInstance`'s constructor: both
module-level registries are reassigned to fresh empty maps. -/
def ModelFactoryInstance.construct (_ : FactoryState) : FactoryState :=
  ⟨[], [], [], []⟩

/-- `registerModel(modelName, factoryFunction)`: validates the name, then
inserts only when no entry exists yet and the argument is callable. -/
def registerModel (s : FactoryState) (modelName : JSVal) (factoryFunction : FnVal) :
    Except String FactoryState := do
  let mn ← checkModelName modelName
  match factoryFunction with
  | .fn f =>
    if ¬ AList.has s.modelFactories mn then
      return { s with modelFactories := AList.set s.modelFactories mn f }
    else
      return s
  | .notFn => return s

/-- `registerEvent(eventType, modelName, factoryFunction)`: validates the
name then the event type (in source order), and inserts or overwrites
whenever the argument is callable. -/
def registerEvent (s : FactoryState) (eventType modelName : JSVal)
    (factoryFunction : FnVal) : Except String FactoryState := do
  let mn ← checkModelName modelName
  let et ← checkEventType eventType
  match factoryFunction with
  | .fn f => return s.setEvents et (AList.set (s.events et) mn f)
  | .notFn => return s

/-- `listModels()`: the registered model constructors in insertion order
(`[...modelFactories.values()]`, a snapshot copy). -/
def listModels (s : FactoryState) : List Factory :=
  s.modelFactories.map (fun p => p.2)

/-- An observable side effect of the core: a registered constructor
invocation, a `repository.save` call, or an `observer.notify` call. -/
inductive Effect where
  | modelCtorCall (modelName : String) (args : Obj)
  | eventCtorCall (eventType modelName : String) (args : Obj)
  | saveCall (id : Attr) (model : Obj)
  | notifyCall (eventName : Attr) (event : Obj)
deriving Repr, DecidableEq

/-- Modelled from the spec: `src/models/model.js` (not under `src/`) —
`Model.create({factory, args, modelName})` "invokes the constructor
asynchronously with `args`, applies the model enrichment pipeline (§4.2) to
the constructor's output merged with `{id-generator, modelTypeName}`
metadata" (spec §4.1); the metadata shadows constructor-produced bindings,
as the event path's spread-merge does. -/
def Model.create (factory : Factory) (args : Obj) (modelName : String) (n : Nat) :
    List Effect × Except String (Obj × Nat) :=
  ([Effect.modelCtorCall modelName args],
   match factory args with
   | .error e => .error e
   | .ok bag =>
     enrichModel (bag.merge [("generateId", .func "uuid"), ("modelName", .str modelName)], n))

/-- `createModel(modelName, args)`: validates the name, looks up the
constructor, delegates to `Model.create` and freezes the result; throws
`unregistered model` when no constructor is registered.  The registry state
is taken immutably: the operation performs no registry mutation. -/
def createModel (s : FactoryState) (modelName : JSVal) (args : Obj) (n : Nat) :
    List Effect × Except String (Obj × Nat) :=
  match checkModelName modelName with
  | .error e => ([], .error e)
  | .ok mn =>
    match AList.get? s.modelFactories mn with
    | some factory =>
      let (t, r) := Model.create factory args mn n
      (t, r.map (fun p => (p.1.freeze, p.2)))
    | none => ([], .error "unregistered model")

/-- `createEvent(eventType, modelName, args)`: validates both keys (name
first, in source order), looks up the constructor for the pair, awaits it,
spread-merges the `{generateId, modelName, eventType}` options over its
output, runs the event enrichment pipeline and freezes the result; throws
`unregistered model event` when no constructor is registered for the pair.
The registry state is taken immutably: no registry mutation occurs. -/
def createEvent (s : FactoryState) (eventType modelName : JSVal) (args : Obj) (n : Nat) :
    List Effect × Except String (Obj × Nat) :=
  match checkModelName modelName with
  | .error e => ([], .error e)
  | .ok mn =>
    match checkEventType eventType with
    | .error e => ([], .error e)
    | .ok et =>
      match AList.get? (s.events et) mn with
      | some factory =>
        ([Effect.eventCtorCall et mn args],
         match factory args with
         | .error e => .error e
         | .ok event =>
           (enrichEvent (event.merge
              [("generateId", .func "uuid"), ("modelName", .str mn), ("eventType", .str et)],
              n)).map (fun p => (p.1.freeze, p.2)))
      | none => ([], .error "unregistered model event")

/-- The collaborators of the add-model use case: `repository.save` and
`observer.notify`, each an awaited call that may reject. -/
structure Collab where
  save : Attr → Obj → Except String Unit
  notify : Attr → Obj → Except String Unit

/-- The inner `addModel(input)` closure of `addModelFactory`: create the
model, create the CREATE event from it, persist by id, notify with the
event's name, return the model; each step is awaited, so a rejection
short-circuits the remaining steps.  `ModelFactory.getInstance()` and
`ModelFactory.eventTypes.CREATE` come from `src/models` (not under `src/`)
and are modelled from the spec: `getInstance` returns the factory backed by
the module-level registry (the threaded state), and `eventTypes.CREATE` is
the string `CREATE`. -/
def addModel (c : Collab) (modelName : JSVal) (s : FactoryState) (input : Obj) (n : Nat) :
    List Effect × Except String Obj :=
  let (t1, r1) := createModel s modelName input n
  match r1 with
  | .error e => (t1, .error e)
  | .ok (model, n1) =>
    let (t2, r2) := createEvent s (.str "CREATE") modelName model n1
    match r2 with
    | .error e => (t1 ++ t2, .error e)
    | .ok (event, _n2) =>
      let idv := model.getD "id"
      match c.save idv model with
      | .error e => (t1 ++ t2 ++ [.saveCall idv model], .error e)
      | .ok _ =>
        match event.call0 "getEventName" with
        | .error e => (t1 ++ t2 ++ [.saveCall idv model], .error e)
        | .ok name =>
          match c.notify name event with
          | .error e => (t1 ++ t2 ++ [.saveCall idv model, .notifyCall name event], .error e)
          | .ok _ => (t1 ++ t2 ++ [.saveCall idv model, .notifyCall name event], .ok model)

/-- The position of an effect in the add-model step order. -/
def Effect.rank : Effect → Nat
  | .modelCtorCall _ _ => 0
  | .eventCtorCall _ _ _ => 1
  | .saveCall _ _ => 2
  | .notifyCall _ _ => 3

/-! Concrete sample data used to instantiate the theorems below: a fresh
registry, an `Order` model constructor returning `{total: 100}` and an event
constructor echoing its input, following the end-to-end scenario of spec §8. -/

/-- The registry state right after `new ModelFactoryInstance()`. -/
def emptyState : FactoryState := ⟨[], [], [], []⟩

/-- An empty argument bag `{}`. -/
def emptyObj : Obj := ⟨[], false⟩

/-- A model constructor returning `{total: 100}`. -/
def orderCtor : Factory := fun _ => .ok ⟨[("total", .num 100)], false⟩

/-- The attribute bag `orderCtor` returns. -/
def bagOrder : Obj := ⟨[("total", .num 100)], false⟩

/-- An event constructor echoing its input. -/
def echoCtor : Factory := fun m => .ok m

/-- The state after registering `orderCtor` for model `Order`. -/
def regState : FactoryState := ⟨[("ORDER", orderCtor)], [], [], []⟩

/-- The state after additionally registering `echoCtor` for `CREATE`/`Order`. -/
def sampleState : FactoryState := ⟨[("ORDER", orderCtor)], [("ORDER", echoCtor)], [], []⟩

/-- The state after registering `orderCtor` for `UPDATE`/`Order` on a fresh
registry. -/
def eState1 : FactoryState := ⟨[], [], [("ORDER", orderCtor)], []⟩

/-- The state after re-registering `echoCtor` for `UPDATE`/`Order`: the event
entry is overwritten. -/
def eState2 : FactoryState := ⟨[], [], [("ORDER", echoCtor)], []⟩

/-- The event `createEvent("create", "Order", {})` produces on `sampleState`
with the generator counter at 0. -/
def evC1 : Obj :=
  ⟨[("createTime", .str timeStamp), ("eventName", .str "CREATEORDER"),
    ("getEventName", .getter (.str "CREATEORDER")), ("id", .str (uuid 0)),
    ("getId", .getter (.str (uuid 0))), ("generateId", .func "uuid"),
    ("modelName", .str "ORDER"), ("eventType", .str "CREATE")], true⟩

/-- The model `createModel("Order", {})` produces on `regState` or
`sampleState` with the generator counter at 0. -/
def modelOrder : Obj :=
  ⟨[("createTime", .str timeStamp), ("modelName", .str "ORDER"),
    ("getModelName", .getter (.str "ORDER")), ("id", .str (uuid 0)),
    ("getId", .getter (.str (uuid 0))), ("generateId", .func "uuid"),
    ("modelName", .str "ORDER"), ("total", .num 100)], true⟩

/-- The CREATE event built from `modelOrder` by `echoCtor` during the
add-model use case (generator counter at 1). -/
def evOrder : Obj :=
  ⟨[("createTime", .str timeStamp), ("eventName", .str "CREATEORDER"),
    ("getEventName", .getter (.str "CREATEORDER")), ("id", .str (uuid 1)),
    ("getId", .getter (.str (uuid 1))), ("generateId", .func "uuid"),
    ("modelName", .str "ORDER"), ("eventType", .str "CREATE")] ++ modelOrder.attrs,
   true⟩

/-- The effect trace of a fully successful `addModel` run on `sampleState`. -/
def traceAddModel : List Effect :=
  [.modelCtorCall "ORDER" emptyObj, .eventCtorCall "CREATE" "ORDER" modelOrder,
   .saveCall (.str (uuid 0)) modelOrder, .notifyCall (.str "CREATEORDER") evOrder]

/-- Collaborators whose `save` and `notify` always succeed. -/
def okCollab : Collab := ⟨fun _ _ => .ok (), fun _ _ => .ok ()⟩

/-- A model constructor whose output carries an `eventType` attribute,
exercising the timestamp key derivation of `addTimestamp` on the model
pipeline. -/
def badCtor : Factory := fun _ => .ok ⟨[("eventType", .str "UPDATE")], false⟩

/-- The state after registering `badCtor` for model `Order`. -/
def cxState : FactoryState := ⟨[("ORDER", badCtor)], [], [], []⟩

/-- The model `createModel("Order", {})` produces on `cxState`: its timestamp
lands under `updateTime`, not `createTime`. -/
def cxModel : Obj :=
  ⟨[("updateTime", .str timeStamp), ("modelName", .str "ORDER"),
    ("getModelName", .getter (.str "ORDER")), ("id", .str (uuid 0)),
    ("getId", .getter (.str (uuid 0))), ("generateId", .func "uuid"),
    ("modelName", .str "ORDER"), ("eventType", .str "UPDATE")], true⟩

/-- An event constructor producing junk values in every pipeline-controlled
field. -/
def junkCtor : Factory := fun _ => .ok ⟨[("id", .str "junk"), ("eventName", .str "junk"),
  ("getEventName", .num 7), ("modelName", .str "junk"), ("eventType", .str "junk"),
  ("getId", .num 8), ("extra", .num 9)], false⟩

/-- The state after registering `junkCtor` for `CREATE`/`Order`. -/
def junkState : FactoryState := ⟨[], [("ORDER", junkCtor)], [], []⟩

/-- The event `createEvent("create", "Order", {})` produces on `junkState`:
every pipeline-controlled binding shadows the junk the constructor wrote. -/
def evJunk : Obj :=
  ⟨[("createTime", .str timeStamp), ("eventName", .str "CREATEORDER"),
    ("getEventName", .getter (.str "CREATEORDER")), ("id", .str (uuid 0)),
    ("getId", .getter (.str (uuid 0))), ("generateId", .func "uuid"),
    ("modelName", .str "ORDER"), ("eventType", .str "CREATE"),
    ("id", .str "junk"), ("eventName", .str "junk"), ("getEventName", .num 7),
    ("modelName", .str "junk"), ("eventType", .str "junk"), ("getId", .num 8),
    ("extra", .num 9)], true⟩


/-! Generic facts about uppercasing, the enrichment pipelines, the
association-list registry and the traces of the assembly operations, shared
by the claim theorems below. -/

/-- Packing a small codepoint is faithful. -/
theorem charOfNatToNat (n : Nat) (h : n < 0xd800) : (Char.ofNat n).toNat = n := by
  rw [Char.ofNat, dif_pos (Or.inl h)]
  simp [Char.ofNatAux, Char.toNat, UInt32.toNat, BitVec.ofNatLt]

/-- JavaScript `toUpperCase` is idempotent on single characters. -/
theorem charToUpperIdem (c : Char) : c.toUpper.toUpper = c.toUpper := by
  simp only [Char.toUpper]
  by_cases h : c.toNat ≥ 97 ∧ c.toNat ≤ 122
  · rw [if_pos h]
    have hv : (Char.ofNat (c.toNat - 32)).toNat = c.toNat - 32 :=
      charOfNatToNat _ (by omega)
    rw [if_neg]
    omega
  · rw [if_neg h, if_neg h]

/-- Uppercasing is idempotent: canonical names are fixed points. -/
theorem stringToUpperIdem (s : String) : s.toUpper.toUpper = s.toUpper := by
  simp only [String.toUpper, String.map_eq]
  simp [List.map_map, Function.comp_def, charToUpperIdem]

/-- Unfold `toUpper` to the character list, for concrete evaluation. -/
theorem toUpperData (s : String) : s.toUpper = ⟨s.data.map Char.toUpper⟩ :=
  String.map_eq _ _

/-- Unfold `toLower` to the character list, for concrete evaluation. -/
theorem toLowerData (s : String) : s.toLower = ⟨s.data.map Char.toLower⟩ :=
  String.map_eq _ _

/-- The generated identifiers are never the empty string. -/
theorem uuid_ne_empty (n : Nat) : uuid n ≠ "" := by
  simp [uuid, String.ext_iff]

/-- Running the event pipeline over a constructor output merged with the
canonical options: every derived attribute is prepended in pipeline order. -/
theorem enrichEvent_merged (event : Obj) (mn et : String) (n : Nat)
    (hmn : mn.toUpper = mn) (het : et ∈ EventTypes) :
    enrichEvent (event.merge
        [("generateId", .func "uuid"), ("modelName", .str mn), ("eventType", .str et)], n) =
      .ok (⟨(et.toLower ++ "Time", .str timeStamp) ::
            ("eventName", .str (et ++ mn)) ::
            ("getEventName", .getter (.str (et ++ mn))) ::
            ("id", .str (uuid n)) :: ("getId", .getter (.str (uuid n))) ::
            ("generateId", .func "uuid") :: ("modelName", .str mn) ::
            ("eventType", .str et) :: event.attrs, false⟩, n + 1) := by
  simp only [EventTypes, List.mem_cons, List.not_mem_nil, or_false] at het
  rcases het with h | h | h
  all_goals subst h
  all_goals
    simp [enrichEvent, compose, List.foldlM, addId, addEventName, addTimestamp,
      Obj.merge, Obj.get, Obj.getD, Attr.toJS, Attr.truthy, createEventName,
      checkEventType, checkModelName, EventTypes, hmn, bind, Except.bind,
      toUpperData, toLowerData, Char.toUpper, Char.toLower, pure, Except.pure]

/-- Running the model pipeline over a constructor output merged with the
canonical metadata, when the output has no `eventType` attribute. -/
theorem enrichModel_merged (bag : Obj) (mn : String) (n : Nat)
    (hev : bag.get "eventType" = none) :
    enrichModel (bag.merge [("generateId", .func "uuid"), ("modelName", .str mn)], n) =
      .ok (⟨("createTime", .str timeStamp) ::
            ("modelName", .str mn) :: ("getModelName", .getter (.str mn)) ::
            ("id", .str (uuid n)) :: ("getId", .getter (.str (uuid n))) ::
            ("generateId", .func "uuid") :: ("modelName", .str mn) :: bag.attrs, false⟩,
           n + 1) := by
  have hf : List.find? (fun p => p.1 == "eventType") bag.attrs = none := by
    simpa [Obj.get, Option.map_eq_none'] using hev
  simp [enrichModel, compose, List.foldlM, addId, addModelName, addTimestamp,
    Obj.merge, Obj.get, Obj.getD, Attr.truthy, hf,
    toLowerData, Char.toLower, pure, Except.pure, bind, Except.bind]

/-- Inversion for a successful event-type validation. -/
theorem checkEventType_ok {es et : String}
    (h : checkEventType (.str es) = .ok et) :
    et = es.toUpper ∧ es.toUpper ∈ EventTypes := by
  simp only [checkEventType] at h
  by_cases hm : es.toUpper ∈ EventTypes
  · rw [if_pos hm] at h
    cases h
    exact ⟨rfl, hm⟩
  · rw [if_neg hm] at h
    cases h

/-- Validating the canonical CREATE event type succeeds. -/
theorem checkEventType_CREATE : checkEventType (.str "CREATE") = .ok "CREATE" := by
  simp [checkEventType, EventTypes, toUpperData, Char.toUpper]

/-- Inversion for a successful `createEvent`: the constructor for the
canonical pair was invoked and the result is the frozen, fully enriched
merge of its output. -/
theorem createEvent_ok_inv {s : FactoryState} {es ms : String} {args : Obj}
    {n : Nat} {t : List Effect} {ev : Obj} {n2 : Nat}
    (h : createEvent s (.str es) (.str ms) args n = (t, .ok (ev, n2))) :
    ∃ f event, AList.get? (s.events es.toUpper) ms.toUpper = some f ∧
      f args = .ok event ∧ es.toUpper ∈ EventTypes ∧
      t = [Effect.eventCtorCall es.toUpper ms.toUpper args] ∧ n2 = n + 1 ∧
      ev = ⟨(es.toUpper.toLower ++ "Time", .str timeStamp) ::
            ("eventName", .str (es.toUpper ++ ms.toUpper)) ::
            ("getEventName", .getter (.str (es.toUpper ++ ms.toUpper))) ::
            ("id", .str (uuid n)) :: ("getId", .getter (.str (uuid n))) ::
            ("generateId", .func "uuid") :: ("modelName", .str ms.toUpper) ::
            ("eventType", .str es.toUpper) :: event.attrs, true⟩ := by
  cases hET : checkEventType (.str es) with
  | error e => simp [createEvent, checkModelName, hET] at h
  | ok et =>
    obtain ⟨rfl, hmem⟩ := checkEventType_ok hET
    cases hL : AList.get? (s.events es.toUpper) ms.toUpper with
    | none => simp [createEvent, checkModelName, hET, hL] at h
    | some f =>
      cases hF : f args with
      | error e => simp [createEvent, checkModelName, hET, hL, hF] at h
      | ok event =>
        rw [createEvent] at h
        simp only [checkModelName, hET, hL, hF] at h
        rw [enrichEvent_merged event ms.toUpper es.toUpper n
          (stringToUpperIdem ms) hmem] at h
        simp only [Except.map, Obj.freeze, Prod.mk.injEq, Except.ok.injEq] at h
        obtain ⟨ht, hev, hn⟩ := h
        exact ⟨f, event, rfl, hF, hmem, ht.symm, hn.symm, hev.symm⟩

/-- Lookup after `Map.set` on the same key yields the new value. -/
theorem alistGetSetSelf (m : List (String × Factory)) (k : String) (v : Factory) :
    AList.get? (AList.set m k v) k = some v := by
  induction m with
  | nil => simp [AList.set, AList.get?]
  | cons p t ih =>
    by_cases hk : p.1 = k
    · simp [AList.set, AList.get?, hk]
    · simpa [AList.set, AList.get?, hk] using ih

/-- Membership after `Map.set` on the same key. -/
theorem alistHasSetSelf (m : List (String × Factory)) (k : String) (v : Factory) :
    AList.has (AList.set m k v) k = true := by
  induction m with
  | nil => simp [AList.set, AList.has]
  | cons p t ih =>
    by_cases hk : p.1 = k
    · simp [AList.set, AList.has, hk]
    · simpa [AList.set, AList.has, hk] using ih

/-- Inversion for a successful `createModel`: the registered constructor was
invoked once and the result is the frozen enrichment of its output. -/
theorem createModel_ok_inv {s : FactoryState} {ms : String} {args : Obj}
    {n : Nat} {t : List Effect} {mo : Obj} {n2 : Nat}
    (h : createModel s (.str ms) args n = (t, .ok (mo, n2))) :
    ∃ f bag, AList.get? s.modelFactories ms.toUpper = some f ∧
      f args = .ok bag ∧ t = [Effect.modelCtorCall ms.toUpper args] ∧
      (enrichModel (bag.merge
          [("generateId", .func "uuid"), ("modelName", .str ms.toUpper)], n)).map
        (fun p => (p.1.freeze, p.2)) = .ok (mo, n2) := by
  cases hL : AList.get? s.modelFactories ms.toUpper with
  | none => simp [createModel, checkModelName, hL] at h
  | some f =>
    cases hF : f args with
    | error e =>
      simp [createModel, checkModelName, hL, Model.create, hF, Except.map] at h
    | ok bag =>
      rw [createModel] at h
      simp only [checkModelName, hL, Model.create, hF] at h
      refine ⟨f, bag, rfl, hF, ?_⟩
      cases hE : enrichModel (bag.merge
          [("generateId", .func "uuid"), ("modelName", .str ms.toUpper)], n) with
      | error e => rw [hE] at h; simp [Except.map] at h
      | ok p =>
        rw [hE] at h
        simp only [Except.map, Prod.mk.injEq, Except.ok.injEq] at h
        obtain ⟨ht, hmo, hn⟩ := h
        simp [hE, Except.map, ht.symm, hmo, hn]

/-- Registering a model constructor under a fresh name inserts it. -/
theorem registerModel_fresh {s : FactoryState} {ns : String} {f : Factory}
    (hfresh : AList.has s.modelFactories ns.toUpper = false) :
    registerModel s (.str ns) (.fn f) =
      .ok { s with modelFactories := AList.set s.modelFactories ns.toUpper f } := by
  simp [registerModel, checkModelName, hfresh, pure, Except.pure, bind, Except.bind]

/-- Registering a model constructor under a taken name is a silent no-op. -/
theorem registerModel_existing {s : FactoryState} {ns : String} {g : Factory}
    (hhas : AList.has s.modelFactories ns.toUpper = true) :
    registerModel s (.str ns) (.fn g) = .ok s := by
  simp [registerModel, checkModelName, hhas, pure, Except.pure, bind, Except.bind]

/-- Reading back the event map just written for a valid event type. -/
theorem eventsSetEventsSelf (s : FactoryState) (et : String)
    (m : List (String × Factory)) (h : et ∈ EventTypes) :
    (s.setEvents et m).events et = m := by
  simp only [EventTypes, List.mem_cons, List.not_mem_nil, or_false] at h
  rcases h with h | h | h <;> subst h <;>
    simp [FactoryState.setEvents, FactoryState.events]

/-- Registering an event constructor always writes the entry for the
canonical pair. -/
theorem registerEvent_fn {s : FactoryState} {es ns : String} {f : Factory}
    (hes : es.toUpper ∈ EventTypes) :
    registerEvent s (.str es) (.str ns) (.fn f) =
      .ok (s.setEvents es.toUpper (AList.set (s.events es.toUpper) ns.toUpper f)) := by
  simp [registerEvent, checkModelName, checkEventType, hes, pure, Except.pure,
    bind, Except.bind]

/-- A successful event registration implies the event type was valid. -/
theorem registerEvent_ok_types {s : FactoryState} {es ns : String} {fv : FnVal}
    {e1 : FactoryState} (h : registerEvent s (.str es) (.str ns) fv = .ok e1) :
    es.toUpper ∈ EventTypes := by
  by_cases hm : es.toUpper ∈ EventTypes
  · exact hm
  · simp [registerEvent, checkModelName, checkEventType, hm, bind, Except.bind] at h

/-- A value coming out of the final freeze step is frozen. -/
theorem map_freeze_ok {r : Except String (Obj × Nat)} {o : Obj} {n2 : Nat}
    (h : Except.map (fun p : Obj × Nat => (p.1.freeze, p.2)) r = .ok (o, n2)) :
    o.frozen = true := by
  cases r with
  | error e => simp [Except.map] at h
  | ok p =>
    simp [Except.map] at h
    rw [← h.1]
    rfl

/-- Every model `createModel` returns is frozen. -/
theorem freeze_result_model {s : FactoryState} {nm : JSVal} {args : Obj} {n : Nat}
    {t : List Effect} {o : Obj} {n2 : Nat}
    (h : createModel s nm args n = (t, .ok (o, n2))) : o.frozen = true := by
  cases hc : checkModelName nm with
  | error e => simp [createModel, hc] at h
  | ok mn =>
    cases hL : AList.get? s.modelFactories mn with
    | none => simp [createModel, hc, hL] at h
    | some f =>
      simp only [createModel, hc, hL, Model.create] at h
      cases hf : f args with
      | error e2 => simp [hf, Except.map] at h
      | ok bag =>
        simp only [hf] at h
        exact map_freeze_ok (by simpa using congrArg Prod.snd h)

/-- Every event `createEvent` returns is frozen. -/
theorem freeze_result_event {s : FactoryState} {et nm : JSVal} {args : Obj} {n : Nat}
    {t : List Effect} {o : Obj} {n2 : Nat}
    (h : createEvent s et nm args n = (t, .ok (o, n2))) : o.frozen = true := by
  cases hc : checkModelName nm with
  | error e => simp [createEvent, hc] at h
  | ok mn =>
    cases hT : checkEventType et with
    | error e => simp [createEvent, hc, hT] at h
    | ok ets =>
      cases hL : AList.get? (s.events ets) mn with
      | none => simp [createEvent, hc, hT, hL] at h
      | some f =>
        simp only [createEvent, hc, hT, hL] at h
        cases hf : f args with
        | error e2 => simp [hf, Except.map] at h
        | ok bag =>
          simp only [hf] at h
          exact map_freeze_ok (by simpa using congrArg Prod.snd h)

/-- A successful `createModel` performed exactly one constructor call. -/
theorem createModel_ok_trace {s : FactoryState} {nm : JSVal} {args : Obj} {n : Nat}
    {t : List Effect} {p : Obj × Nat}
    (h : createModel s nm args n = (t, .ok p)) :
    ∃ mn, checkModelName nm = .ok mn ∧ t = [Effect.modelCtorCall mn args] := by
  cases hc : checkModelName nm with
  | error e => simp [createModel, hc] at h
  | ok mn =>
    cases hL : AList.get? s.modelFactories mn with
    | none => simp [createModel, hc, hL] at h
    | some f =>
      refine ⟨mn, rfl, ?_⟩
      simp only [createModel, hc, hL, Model.create] at h
      exact (congrArg Prod.fst h).symm

/-- A successful `createEvent` performed exactly one constructor call, for
the canonical pair. -/
theorem createEvent_ok_trace {s : FactoryState} {et nm : JSVal} {args : Obj} {n : Nat}
    {t : List Effect} {p : Obj × Nat}
    (h : createEvent s et nm args n = (t, .ok p)) :
    ∃ ets mn, checkEventType et = .ok ets ∧ checkModelName nm = .ok mn ∧
      t = [Effect.eventCtorCall ets mn args] := by
  cases hc : checkModelName nm with
  | error e => simp [createEvent, hc] at h
  | ok mn =>
    cases hT : checkEventType et with
    | error e => simp [createEvent, hc, hT] at h
    | ok ets =>
      cases hL : AList.get? (s.events ets) mn with
      | none => simp [createEvent, hc, hT, hL] at h
      | some f =>
        refine ⟨ets, mn, rfl, rfl, ?_⟩
        simp only [createEvent, hc, hT, hL] at h
        exact (congrArg Prod.fst h).symm

/-- A failed `createModel` performed at most one constructor call. -/
theorem createModel_error_trace {s : FactoryState} {nm : JSVal} {args : Obj} {n : Nat}
    {t : List Effect} {e : String}
    (h : createModel s nm args n = (t, .error e)) :
    t = [] ∨ ∃ mn, t = [Effect.modelCtorCall mn args] := by
  cases hc : checkModelName nm with
  | error e2 =>
    simp only [createModel, hc] at h
    exact Or.inl (congrArg Prod.fst h).symm
  | ok mn =>
    cases hL : AList.get? s.modelFactories mn with
    | none =>
      simp only [createModel, hc, hL] at h
      exact Or.inl (congrArg Prod.fst h).symm
    | some f =>
      simp only [createModel, hc, hL, Model.create] at h
      exact Or.inr ⟨mn, (congrArg Prod.fst h).symm⟩

/-- A failed `createEvent` performed at most one constructor call. -/
theorem createEvent_error_trace {s : FactoryState} {et nm : JSVal} {args : Obj} {n : Nat}
    {t : List Effect} {e : String}
    (h : createEvent s et nm args n = (t, .error e)) :
    t = [] ∨ ∃ ets mn, t = [Effect.eventCtorCall ets mn args] := by
  cases hc : checkModelName nm with
  | error e2 =>
    simp only [createEvent, hc] at h
    exact Or.inl (congrArg Prod.fst h).symm
  | ok mn =>
    cases hT : checkEventType et with
    | error e2 =>
      simp only [createEvent, hc, hT] at h
      exact Or.inl (congrArg Prod.fst h).symm
    | ok ets =>
      cases hL : AList.get? (s.events ets) mn with
      | none =>
        simp only [createEvent, hc, hT, hL] at h
        exact Or.inl (congrArg Prod.fst h).symm
      | some f =>
        simp only [createEvent, hc, hT, hL] at h
        exact Or.inr ⟨ets, mn, (congrArg Prod.fst h).symm⟩

/-- Concrete run: `createEvent("create", "Order", {})` on `sampleState`. -/
theorem evalCreateEventSample :
    createEvent sampleState (.str "create") (.str "Order") emptyObj 0 =
      ([.eventCtorCall "CREATE" "ORDER" emptyObj], .ok (evC1, 1)) := by
  simp [createEvent, checkModelName, checkEventType, EventTypes, AList.get?,
    sampleState, echoCtor, enrichEvent, compose, List.foldlM, addId, addEventName,
    addTimestamp, Obj.merge, Obj.get, Obj.getD, Attr.truthy, Attr.toJS,
    createEventName, toUpperData, toLowerData, Char.toUpper, Char.toLower,
    pure, Except.pure, bind, Except.bind, Obj.freeze, evC1, emptyObj, Except.map,
    FactoryState.events]

/-- Concrete run: `createModel("Order", {})` on `regState`. -/
theorem evalCreateModelReg :
    createModel regState (.str "Order") emptyObj 0 =
      ([.modelCtorCall "ORDER" emptyObj], .ok (modelOrder, 1)) := by
  simp [createModel, checkModelName, AList.get?, regState, orderCtor, Model.create,
    enrichModel, compose, List.foldlM, addId, addModelName, addTimestamp,
    Obj.merge, Obj.get, Obj.getD, Attr.truthy, toUpperData, toLowerData,
    Char.toUpper, Char.toLower, pure, Except.pure, bind, Except.bind,
    Obj.freeze, modelOrder, emptyObj, Except.map]

/-- Concrete run: `createModel("order", {})` on `sampleState`. -/
theorem evalCreateModelSample :
    createModel sampleState (.str "order") emptyObj 0 =
      ([.modelCtorCall "ORDER" emptyObj], .ok (modelOrder, 1)) := by
  simp [createModel, checkModelName, AList.get?, sampleState, orderCtor, Model.create,
    enrichModel, compose, List.foldlM, addId, addModelName, addTimestamp,
    Obj.merge, Obj.get, Obj.getD, Attr.truthy, toUpperData, toLowerData,
    Char.toUpper, Char.toLower, pure, Except.pure, bind, Except.bind,
    Obj.freeze, modelOrder, emptyObj, Except.map]

/-- Concrete run: `createEvent("CREATE", "order", modelOrder)` on
`sampleState` with the counter at 1. -/
theorem evalCreateEventModel :
    createEvent sampleState (.str "CREATE") (.str "order") modelOrder 1 =
      ([.eventCtorCall "CREATE" "ORDER" modelOrder], .ok (evOrder, 2)) := by
  simp [createEvent, checkModelName, checkEventType, EventTypes, AList.get?,
    sampleState, echoCtor, enrichEvent, compose, List.foldlM, addId, addEventName,
    addTimestamp, Obj.merge, Obj.get, Obj.getD, Attr.truthy, Attr.toJS,
    createEventName, toUpperData, toLowerData, Char.toUpper, Char.toLower,
    pure, Except.pure, bind, Except.bind, Obj.freeze, evOrder, modelOrder,
    Except.map, FactoryState.events]

/-- Concrete run: the full add-model use case on `sampleState` succeeds with
the four effects in step order. -/
theorem evalAddModelSample :
    addModel okCollab (.str "order") sampleState emptyObj 0 =
      (traceAddModel, .ok modelOrder) := by
  simp only [addModel, evalCreateModelSample, evalCreateEventModel, okCollab]
  simp [Obj.call0, Obj.get, Obj.getD, evOrder, modelOrder, traceAddModel]

/-- Concrete run: `createEvent("create", "Order", {})` on `junkState`: the
pipeline bindings shadow all the junk the constructor produced. -/
theorem evalCreateEventJunk :
    createEvent junkState (.str "create") (.str "Order") emptyObj 0 =
      ([.eventCtorCall "CREATE" "ORDER" emptyObj], .ok (evJunk, 1)) := by
  simp [createEvent, checkModelName, checkEventType, EventTypes, AList.get?,
    junkState, junkCtor, enrichEvent, compose, List.foldlM, addId, addEventName,
    addTimestamp, Obj.merge, Obj.get, Obj.getD, Attr.truthy, Attr.toJS,
    createEventName, toUpperData, toLowerData, Char.toUpper, Char.toLower,
    pure, Except.pure, bind, Except.bind, Obj.freeze, evJunk, emptyObj, Except.map,
    FactoryState.events]

/-- Claim C1: for every event type in the closed set and every valid
model-type name, `getEventName()` on the event `createEvent` produces equals
`uppercase(eventType) ++ uppercase(modelTypeName)` with no separator, and
the name depends only on the pair: a second successful run with a different
registry, constructor, argument bag and generator counter yields the
identical name. -/
theorem c1_event_name_protocol
    (s s2 : FactoryState) (es ms : String) (args args2 : Obj) (n n2 m m2 : Nat)
    (t t2 : List Effect) (ev ev2 : Obj)
    (h : createEvent s (.str es) (.str ms) args n = (t, .ok (ev, m)))
    (h2 : createEvent s2 (.str es) (.str ms) args2 n2 = (t2, .ok (ev2, m2))) :
    ev.call0 "getEventName" = .ok (.str (es.toUpper ++ ms.toUpper)) ∧
    ev.get "eventName" = some (.str (es.toUpper ++ ms.toUpper)) ∧
    ev2.call0 "getEventName" = ev.call0 "getEventName" := by
  obtain ⟨f, event, -, -, hmem, -, -, rfl⟩ := createEvent_ok_inv h
  obtain ⟨f2, event2, -, -, -, -, -, rfl⟩ := createEvent_ok_inv h2
  simp only [EventTypes, List.mem_cons, List.not_mem_nil, or_false] at hmem
  rcases hmem with hm | hm | hm <;>
    rw [hm] <;>
    simp [Obj.call0, Obj.get, toLowerData, Char.toLower]

/-- Claim C1 witness: the protocol instantiated on the spec §8 scenario,
`createEvent("create", "Order", {})`, whose event name is `CREATEORDER`. -/
theorem c1_witness :
    evC1.call0 "getEventName" = .ok (.str ("create".toUpper ++ "Order".toUpper)) ∧
    evC1.get "eventName" = some (.str ("create".toUpper ++ "Order".toUpper)) ∧
    evC1.call0 "getEventName" = evC1.call0 "getEventName" :=
  c1_event_name_protocol sampleState sampleState "create" "Order" emptyObj emptyObj
    0 0 1 1 [.eventCtorCall "CREATE" "ORDER" emptyObj]
    [.eventCtorCall "CREATE" "ORDER" emptyObj] evC1 evC1
    evalCreateEventSample evalCreateEventSample

/-- Claim C2: registration policies differ by kind.  After a first
`registerModel` for a fresh name, a second `registerModel` for the same name
is a silent no-op (the state is unchanged and the call succeeds) and
`createModel` still resolves to and invokes the first constructor `f`;
whereas a second `registerEvent` for the same pair overwrites the entry, so
`createEvent` resolves to and invokes the later constructor `g`. -/
theorem c2_registration_policies
    (s : FactoryState) (ns es : String) (f g : Factory)
    (s1 s2 e1 e2 : FactoryState)
    (hfresh : AList.has s.modelFactories ns.toUpper = false)
    (h1 : registerModel s (.str ns) (.fn f) = .ok s1)
    (h2 : registerModel s1 (.str ns) (.fn g) = .ok s2)
    (he1 : registerEvent s (.str es) (.str ns) (.fn f) = .ok e1)
    (he2 : registerEvent e1 (.str es) (.str ns) (.fn g) = .ok e2) :
    s2 = s1 ∧
    AList.get? s2.modelFactories ns.toUpper = some f ∧
    (∀ args n, createModel s2 (.str ns) args n =
      ((Model.create f args ns.toUpper n).1,
       (Model.create f args ns.toUpper n).2.map (fun q => (q.1.freeze, q.2)))) ∧
    AList.get? (e2.events es.toUpper) ns.toUpper = some g ∧
    (∀ args n, createEvent e2 (.str es) (.str ns) args n =
      ([Effect.eventCtorCall es.toUpper ns.toUpper args],
       match g args with
       | .error e => .error e
       | .ok event =>
         (enrichEvent (event.merge [("generateId", .func "uuid"),
            ("modelName", .str ns.toUpper), ("eventType", .str es.toUpper)], n)).map
           (fun q => (q.1.freeze, q.2)))) := by
  have hes : es.toUpper ∈ EventTypes := registerEvent_ok_types he1
  rw [registerModel_fresh hfresh] at h1
  cases h1
  rw [registerModel_existing (by simpa using alistHasSetSelf s.modelFactories ns.toUpper f)] at h2
  cases h2
  rw [registerEvent_fn hes] at he1
  cases he1
  rw [registerEvent_fn hes] at he2
  cases he2
  have hLm : AList.get? (AList.set s.modelFactories ns.toUpper f) ns.toUpper = some f :=
    alistGetSetSelf _ _ _
  have hLe : AList.get?
      ((((s.setEvents es.toUpper (AList.set (s.events es.toUpper) ns.toUpper f)).setEvents
        es.toUpper (AList.set (((s.setEvents es.toUpper
          (AList.set (s.events es.toUpper) ns.toUpper f))).events es.toUpper)
          ns.toUpper g)).events es.toUpper)) ns.toUpper = some g := by
    rw [eventsSetEventsSelf _ _ _ hes]
    exact alistGetSetSelf _ _ _
  refine ⟨rfl, by simpa using hLm, ?_, hLe, ?_⟩
  · intro args n
    rw [createModel]
    simp [checkModelName, hLm]
  · intro args n
    rw [createEvent]
    simp [checkModelName, checkEventType, hes, hLe]

/-- Claim C2 witness: registering `orderCtor` then `echoCtor` for model
`order` keeps `orderCtor`; registering them in turn for `update`/`order`
ends with `echoCtor`. -/
theorem c2_witness :
    regState = regState ∧
    AList.get? regState.modelFactories "order".toUpper = some orderCtor ∧
    createModel regState (.str "order") emptyObj 0 =
      ((Model.create orderCtor emptyObj "order".toUpper 0).1,
       (Model.create orderCtor emptyObj "order".toUpper 0).2.map
         (fun q => (q.1.freeze, q.2))) ∧
    AList.get? (eState2.events "update".toUpper) "order".toUpper = some echoCtor ∧
    createEvent eState2 (.str "update") (.str "order") emptyObj 0 =
      ([Effect.eventCtorCall "update".toUpper "order".toUpper emptyObj],
       match echoCtor emptyObj with
       | .error e => .error e
       | .ok event =>
         (enrichEvent (event.merge [("generateId", .func "uuid"),
            ("modelName", .str "order".toUpper), ("eventType", .str "update".toUpper)], 0)).map
           (fun q => (q.1.freeze, q.2))) := by
  have h := c2_registration_policies emptyState "order" "update" orderCtor echoCtor
    regState regState eState1 eState2
    rfl
    (by simp [registerModel, checkModelName, emptyState, regState, AList.has,
      AList.set, toUpperData, Char.toUpper, pure, Except.pure, bind, Except.bind])
    (by simp [registerModel, checkModelName, regState, AList.has,
      toUpperData, Char.toUpper, pure, Except.pure, bind, Except.bind])
    (by simp [registerEvent, checkModelName, checkEventType, EventTypes,
      emptyState, eState1, AList.set, FactoryState.events, FactoryState.setEvents,
      toUpperData, Char.toUpper, pure, Except.pure, bind, Except.bind])
    (by simp [registerEvent, checkModelName, checkEventType, EventTypes,
      eState1, eState2, AList.set, FactoryState.events, FactoryState.setEvents,
      toUpperData, Char.toUpper, pure, Except.pure, bind, Except.bind])
  exact ⟨h.1, h.2.1, h.2.2.1 emptyObj 0, h.2.2.2.1, h.2.2.2.2 emptyObj 0⟩

/-- Claim C3: within one `addModel` invocation the side effects are strictly
ordered (model constructor, then CREATE-event constructor applied to that
very model, then `repository.save(model.id, model)`, then `observer.notify`
with the event's name and the event); every produced trace is a prefix of
that step order, so a rejection at any step prevents every later step; when
the repository always rejects, no notification is ever recorded and the call
rejects; and the model is returned only when every step succeeded. -/
theorem c3_add_model_ordering
    (c : Collab) (nm : JSVal) (s : FactoryState) (input : Obj) (n : Nat)
    (t : List Effect) (r : Except String Obj)
    (h : addModel c nm s input n = (t, r)) :
    t.map Effect.rank ∈ [([] : List Nat), [0], [0, 1], [0, 1, 2], [0, 1, 2, 3]] ∧
    (∀ model, r = .ok model →
      ∃ mn n1 event ename,
        createModel s nm input n = ([Effect.modelCtorCall mn input], .ok (model, n1)) ∧
        t = [Effect.modelCtorCall mn input, Effect.eventCtorCall "CREATE" mn model,
             Effect.saveCall (model.getD "id") model, Effect.notifyCall ename event] ∧
        c.save (model.getD "id") model = .ok () ∧
        event.call0 "getEventName" = .ok ename ∧
        c.notify ename event = .ok ()) ∧
    (∀ msg, (∀ i m2, c.save i m2 = .error msg) →
      (∀ e ∈ t, e.rank ≠ 3) ∧ ∃ err, r = .error err) := by
  cases hcm : createModel s nm input n with
  | mk t1 r1 =>
  cases r1 with
  | error e =>
    simp only [addModel, hcm] at h
    obtain ⟨rfl, rfl⟩ : t1 = t ∧ Except.error e = r :=
      ⟨congrArg Prod.fst h, congrArg Prod.snd h⟩
    refine ⟨?_, ?_, ?_⟩
    · rcases createModel_error_trace hcm with h1 | ⟨mn, h1⟩ <;> subst h1 <;>
        simp [Effect.rank]
    · intro model hmodel
      cases hmodel
    · intro msg hs
      refine ⟨?_, e, rfl⟩
      rcases createModel_error_trace hcm with h1 | ⟨mn, h1⟩ <;> subst h1 <;>
        simp [Effect.rank]
  | ok p =>
  obtain ⟨model1, n1⟩ := p
  obtain ⟨mn, hcn, ht1⟩ := createModel_ok_trace hcm
  subst ht1
  cases hce : createEvent s (.str "CREATE") nm model1 n1 with
  | mk t2 r2 =>
  cases r2 with
  | error e =>
    simp only [addModel, hcm, hce] at h
    obtain ⟨rfl, rfl⟩ :
        [Effect.modelCtorCall mn input] ++ t2 = t ∧ Except.error e = r :=
      ⟨congrArg Prod.fst h, congrArg Prod.snd h⟩
    refine ⟨?_, ?_, ?_⟩
    · rcases createEvent_error_trace hce with h2 | ⟨ets, mn2, h2⟩ <;> subst h2 <;>
        simp [Effect.rank]
    · intro model hmodel
      cases hmodel
    · intro msg hs
      refine ⟨?_, e, rfl⟩
      rcases createEvent_error_trace hce with h2 | ⟨ets, mn2, h2⟩ <;> subst h2 <;>
        simp [Effect.rank]
  | ok q =>
  obtain ⟨event, n2⟩ := q
  obtain ⟨ets, mn2, hT, hcn2, ht2⟩ := createEvent_ok_trace hce
  rw [checkEventType_CREATE] at hT
  cases hT
  rw [hcn] at hcn2
  cases hcn2
  subst ht2
  cases hsv : c.save (model1.getD "id") model1 with
  | error e =>
    simp only [addModel, hcm, hce, hsv] at h
    obtain ⟨rfl, rfl⟩ :
        [Effect.modelCtorCall mn input] ++ [Effect.eventCtorCall "CREATE" mn model1] ++
          [Effect.saveCall (model1.getD "id") model1] = t ∧ Except.error e = r :=
      ⟨congrArg Prod.fst h, congrArg Prod.snd h⟩
    refine ⟨by simp [Effect.rank], ?_, ?_⟩
    · intro model hmodel
      cases hmodel
    · intro msg hs
      exact ⟨by simp [Effect.rank], e, rfl⟩
  | ok u =>
  cases u
  cases hgn : event.call0 "getEventName" with
  | error e =>
    simp only [addModel, hcm, hce, hsv, hgn] at h
    obtain ⟨rfl, rfl⟩ :
        [Effect.modelCtorCall mn input] ++ [Effect.eventCtorCall "CREATE" mn model1] ++
          [Effect.saveCall (model1.getD "id") model1] = t ∧ Except.error e = r :=
      ⟨congrArg Prod.fst h, congrArg Prod.snd h⟩
    refine ⟨by simp [Effect.rank], ?_, ?_⟩
    · intro model hmodel
      cases hmodel
    · intro msg hs
      have hbad := hs (model1.getD "id") model1
      rw [hsv] at hbad
      cases hbad
  | ok ename =>
  cases hnt : c.notify ename event with
  | error e =>
    simp only [addModel, hcm, hce, hsv, hgn, hnt] at h
    obtain ⟨rfl, rfl⟩ :
        [Effect.modelCtorCall mn input] ++ [Effect.eventCtorCall "CREATE" mn model1] ++
          [Effect.saveCall (model1.getD "id") model1,
           Effect.notifyCall ename event] = t ∧ Except.error e = r :=
      ⟨congrArg Prod.fst h, congrArg Prod.snd h⟩
    refine ⟨by simp [Effect.rank], ?_, ?_⟩
    · intro model hmodel
      cases hmodel
    · intro msg hs
      have hbad := hs (model1.getD "id") model1
      rw [hsv] at hbad
      cases hbad
  | ok u2 =>
  cases u2
  simp only [addModel, hcm, hce, hsv, hgn, hnt] at h
  obtain ⟨rfl, rfl⟩ :
      [Effect.modelCtorCall mn input] ++ [Effect.eventCtorCall "CREATE" mn model1] ++
        [Effect.saveCall (model1.getD "id") model1,
         Effect.notifyCall ename event] = t ∧ Except.ok model1 = r :=
    ⟨congrArg Prod.fst h, congrArg Prod.snd h⟩
  refine ⟨by simp [Effect.rank], ?_, ?_⟩
  · intro model hmodel
    cases hmodel
    exact ⟨mn, n1, event, ename, rfl, by simp, hsv, hgn, hnt⟩
  · intro msg hs
    have hbad := hs (model1.getD "id") model1
    rw [hsv] at hbad
    cases hbad

/-- Claim C3 witness: the fully successful end-to-end run of the use case
(spec §8 scenario) produces exactly the four effects in step order. -/
theorem c3_witness :
    traceAddModel.map Effect.rank ∈
      [([] : List Nat), [0], [0, 1], [0, 1, 2], [0, 1, 2, 3]] :=
  (c3_add_model_ordering okCollab (.str "order") sampleState emptyObj 0
    traceAddModel (.ok modelOrder) evalAddModelSample).1

/-- Claim C4 (as amended): for every valid model-type name and callable
constructor whose output carries no `eventType` attribute, `registerModel`
followed by `createModel` invokes the constructor exactly once (the trace is
a single constructor call with exactly the supplied arguments) and the
result carries the freshly generated non-empty `id`, a `getModelName()`
accessor returning the canonical uppercase name, and a `createTime`
attribute. -/
theorem c4_model_creation
    (s s1 : FactoryState) (ns : String) (f : Factory) (args bag : Obj) (n : Nat)
    (hfresh : AList.has s.modelFactories ns.toUpper = false)
    (hreg : registerModel s (.str ns) (.fn f) = .ok s1)
    (hctor : f args = .ok bag)
    (hbag : bag.get "eventType" = none) :
    createModel s1 (.str ns) args n =
      ([Effect.modelCtorCall ns.toUpper args],
       .ok (⟨("createTime", .str timeStamp) ::
             ("modelName", .str ns.toUpper) ::
             ("getModelName", .getter (.str ns.toUpper)) ::
             ("id", .str (uuid n)) :: ("getId", .getter (.str (uuid n))) ::
             ("generateId", .func "uuid") :: ("modelName", .str ns.toUpper) ::
             bag.attrs, true⟩, n + 1)) ∧
    Obj.get ⟨("createTime", .str timeStamp) ::
             ("modelName", .str ns.toUpper) ::
             ("getModelName", .getter (.str ns.toUpper)) ::
             ("id", .str (uuid n)) :: ("getId", .getter (.str (uuid n))) ::
             ("generateId", .func "uuid") :: ("modelName", .str ns.toUpper) ::
             bag.attrs, true⟩ "id" = some (.str (uuid n)) ∧
    uuid n ≠ "" ∧
    Obj.call0 ⟨("createTime", .str timeStamp) ::
             ("modelName", .str ns.toUpper) ::
             ("getModelName", .getter (.str ns.toUpper)) ::
             ("id", .str (uuid n)) :: ("getId", .getter (.str (uuid n))) ::
             ("generateId", .func "uuid") :: ("modelName", .str ns.toUpper) ::
             bag.attrs, true⟩ "getModelName" = .ok (.str ns.toUpper) ∧
    Obj.get ⟨("createTime", .str timeStamp) ::
             ("modelName", .str ns.toUpper) ::
             ("getModelName", .getter (.str ns.toUpper)) ::
             ("id", .str (uuid n)) :: ("getId", .getter (.str (uuid n))) ::
             ("generateId", .func "uuid") :: ("modelName", .str ns.toUpper) ::
             bag.attrs, true⟩ "createTime" = some (.str timeStamp) := by
  rw [registerModel_fresh hfresh] at hreg
  cases hreg
  have hL : AList.get? (AList.set s.modelFactories ns.toUpper f) ns.toUpper = some f :=
    alistGetSetSelf _ _ _
  refine ⟨?_, ?_, uuid_ne_empty n, ?_, ?_⟩
  · rw [createModel]
    simp only [checkModelName, hL, Model.create, hctor]
    rw [enrichModel_merged bag ns.toUpper n hbag]
    simp [Except.map, Obj.freeze]
  · simp [Obj.get]
  · simp [Obj.call0, Obj.get]
  · simp [Obj.get]

/-- Claim C4 counterexample to the unamended statement: `badCtor` is a
callable constructor and `Order` a valid name, the registration and creation
both succeed, yet the model carries no `createTime` attribute — its
timestamp is keyed `updateTime`, because the constructor output's
`eventType` attribute drives `addTimestamp`'s key derivation. -/
theorem c4_counterexample :
    registerModel emptyState (.str "Order") (.fn badCtor) = .ok cxState ∧
    createModel cxState (.str "Order") emptyObj 0 =
      ([Effect.modelCtorCall "ORDER" emptyObj], .ok (cxModel, 1)) ∧
    cxModel.get "createTime" = none ∧
    cxModel.get "updateTime" = some (.str timeStamp) := by
  refine ⟨?_, ?_, by simp [cxModel, Obj.get], by simp [cxModel, Obj.get]⟩
  · simp [registerModel, checkModelName, emptyState, cxState, AList.has, AList.set,
      toUpperData, Char.toUpper, pure, Except.pure, bind, Except.bind]
  · simp [createModel, checkModelName, cxState, AList.get?, Model.create, badCtor,
      enrichModel, compose, List.foldlM, addId, addModelName, addTimestamp,
      Obj.merge, Obj.get, Obj.getD, Attr.truthy, toUpperData, toLowerData,
      Char.toUpper, Char.toLower, pure, Except.pure, bind, Except.bind,
      Except.map, Obj.freeze, cxModel, emptyObj]

/-- Claim C4 witness: the amended statement instantiated on the `Order`
constructor returning `{total: 100}`. -/
theorem c4_witness :
    createModel regState (.str "Order") emptyObj 0 =
      ([Effect.modelCtorCall "Order".toUpper emptyObj],
       .ok (⟨("createTime", .str timeStamp) ::
             ("modelName", .str "Order".toUpper) ::
             ("getModelName", .getter (.str "Order".toUpper)) ::
             ("id", .str (uuid 0)) :: ("getId", .getter (.str (uuid 0))) ::
             ("generateId", .func "uuid") :: ("modelName", .str "Order".toUpper) ::
             bagOrder.attrs, true⟩, 1)) ∧
    Obj.get ⟨("createTime", .str timeStamp) ::
             ("modelName", .str "Order".toUpper) ::
             ("getModelName", .getter (.str "Order".toUpper)) ::
             ("id", .str (uuid 0)) :: ("getId", .getter (.str (uuid 0))) ::
             ("generateId", .func "uuid") :: ("modelName", .str "Order".toUpper) ::
             bagOrder.attrs, true⟩ "id" = some (.str (uuid 0)) ∧
    uuid 0 ≠ "" ∧
    Obj.call0 ⟨("createTime", .str timeStamp) ::
             ("modelName", .str "Order".toUpper) ::
             ("getModelName", .getter (.str "Order".toUpper)) ::
             ("id", .str (uuid 0)) :: ("getId", .getter (.str (uuid 0))) ::
             ("generateId", .func "uuid") :: ("modelName", .str "Order".toUpper) ::
             bagOrder.attrs, true⟩ "getModelName" = .ok (.str "Order".toUpper) ∧
    Obj.get ⟨("createTime", .str timeStamp) ::
             ("modelName", .str "Order".toUpper) ::
             ("getModelName", .getter (.str "Order".toUpper)) ::
             ("id", .str (uuid 0)) :: ("getId", .getter (.str (uuid 0))) ::
             ("generateId", .func "uuid") :: ("modelName", .str "Order".toUpper) ::
             bagOrder.attrs, true⟩ "createTime" = some (.str timeStamp) :=
  c4_model_creation emptyState regState "Order" orderCtor emptyObj bagOrder 0
    rfl
    (by simp [registerModel, checkModelName, emptyState, regState, AList.has,
      AList.set, toUpperData, Char.toUpper, pure, Except.pure, bind, Except.bind])
    rfl
    rfl

/-- Claim C5: every model or event instance returned by the assembly
operations is frozen, and any subsequent attribute assignment (new key or
existing key) is silently ignored, leaving the object unchanged. -/
theorem c5_immutability
    (s : FactoryState) (et nm : JSVal) (args : Obj) (n : Nat) :
    (∀ t o n2, createModel s nm args n = (t, .ok (o, n2)) →
       o.frozen = true ∧ ∀ k v, o.setAttr k v = o) ∧
    (∀ t o n2, createEvent s et nm args n = (t, .ok (o, n2)) →
       o.frozen = true ∧ ∀ k v, o.setAttr k v = o) := by
  constructor
  · intro t o n2 h
    have hf := freeze_result_model h
    exact ⟨hf, fun k v => by simp [Obj.setAttr, hf]⟩
  · intro t o n2 h
    have hf := freeze_result_event h
    exact ⟨hf, fun k v => by simp [Obj.setAttr, hf]⟩

/-- Claim C5 witness: the concrete `Order` model is frozen and a write to it
is ignored. -/
theorem c5_witness :
    modelOrder.frozen = true ∧ modelOrder.setAttr "hacked" (.num 1) = modelOrder := by
  obtain ⟨hf, hs⟩ := (c5_immutability regState (.str "CREATE") (.str "Order") emptyObj 0).1
    [Effect.modelCtorCall "ORDER" emptyObj] modelOrder 1 evalCreateModelReg
  exact ⟨hf, hs "hacked" (.num 1)⟩

/-- Claim C6: `createModel` on a name with no registered constructor rejects
with the `unregistered model` error, and `createEvent` on a pair with no
registered constructor rejects with `unregistered model event`; in both
cases the effect trace is empty — no constructor is invoked — and the
operations take the registry immutably, so the registry maps are unchanged
by construction. -/
theorem c6_unregistered_rejections
    (s : FactoryState) (ns es : String) (args : Obj) (n : Nat)
    (hm : AList.get? s.modelFactories ns.toUpper = none)
    (hes : es.toUpper ∈ EventTypes)
    (he : AList.get? (s.events es.toUpper) ns.toUpper = none) :
    createModel s (.str ns) args n = ([], .error "unregistered model") ∧
    createEvent s (.str es) (.str ns) args n = ([], .error "unregistered model event") := by
  constructor
  · rw [createModel]
    simp [checkModelName, hm]
  · rw [createEvent]
    simp [checkModelName, checkEventType, hes, he]

/-- Claim C6 witness: nothing is registered for model `Widget` or the pair
`DELETE`/`Widget` on the fresh registry. -/
theorem c6_witness :
    createModel emptyState (.str "Widget") emptyObj 0 =
      ([], .error "unregistered model") ∧
    createEvent emptyState (.str "delete") (.str "Widget") emptyObj 0 =
      ([], .error "unregistered model event") :=
  c6_unregistered_rejections emptyState "Widget" "delete" emptyObj 0
    rfl
    (by simp [toUpperData, Char.toUpper, EventTypes])
    (by simp [emptyState, FactoryState.events, AList.get?, toUpperData, Char.toUpper])

/-- Claim C7 counterexample: the empty string is accepted, not rejected —
`registerModel` with name `""` succeeds and registers the constructor under
the key `""`, and `createModel` with name `""` reaches the registry lookup
and fails with `unregistered model` rather than the invalid-argument
condition. -/
theorem c7_counterexample :
    registerModel emptyState (.str "") (.fn orderCtor) =
      .ok ⟨[("", orderCtor)], [], [], []⟩ ∧
    createModel emptyState (.str "") emptyObj 0 = ([], .error "unregistered model") := by
  constructor
  · simp [registerModel, checkModelName, emptyState, AList.has, AList.set,
      toUpperData, pure, Except.pure, bind, Except.bind]
  · simp [createModel, checkModelName, emptyState, AList.get?, toUpperData]

/-- Claim C7 (as amended): every operation taking a model-type name fails
with the `modelName missing or invalid` condition whenever the name is not a
string, and the failure is produced by the validator before any registry
access: the result is the same for every registry state, no effect is
recorded, and no state is returned. -/
theorem c7_nonstring_name_rejected
    (s : FactoryState) (fv : FnVal) (et : JSVal) (args : Obj) (n : Nat) :
    registerModel s .other fv = .error "modelName missing or invalid" ∧
    registerEvent s et .other fv = .error "modelName missing or invalid" ∧
    createModel s .other args n = ([], .error "modelName missing or invalid") ∧
    createEvent s et .other args n = ([], .error "modelName missing or invalid") := by
  refine ⟨?_, ?_, ?_, ?_⟩ <;>
    simp [registerModel, registerEvent, createModel, createEvent, checkModelName,
      bind, Except.bind]

/-- Claim C8: model-type names are case-insensitive — two spellings with the
same uppercase form resolve to the same registered constructor and the two
`createModel` calls are observationally identical (so either both succeed
with the same result or both fail alike). -/
theorem c8_case_insensitive
    (s : FactoryState) (n1 n2 : String) (hcase : n1.toUpper = n2.toUpper)
    (args : Obj) (n : Nat) :
    AList.get? s.modelFactories n1.toUpper = AList.get? s.modelFactories n2.toUpper ∧
    createModel s (.str n1) args n = createModel s (.str n2) args n := by
  constructor
  · rw [hcase]
  · rw [createModel, createModel]
    simp [checkModelName, hcase]

/-- Claim C8 witness: `createModel("order", {})` and `createModel("ORDER",
{})` coincide on the sample registry. -/
theorem c8_witness :
    AList.get? sampleState.modelFactories "order".toUpper =
      AList.get? sampleState.modelFactories "ORDER".toUpper ∧
    createModel sampleState (.str "order") emptyObj 0 =
      createModel sampleState (.str "ORDER") emptyObj 0 :=
  c8_case_insensitive sampleState "order" "ORDER"
    (by simp [toUpperData, Char.toUpper]) emptyObj 0

/-- Claim C9: the registries are module-level state shared by every
`ModelFactoryInstance` (the embedding threads that single state through all
operations; instances hold no data), and the constructor reassigns both
module-level maps to fresh empty ones: whatever was registered before,
after a construction `listModels` is empty and `createModel`/`createEvent`
reject every name and pair as unregistered. -/
theorem c9_constructor_resets_registry
    (s : FactoryState) (ns es : String) (args : Obj) (n : Nat)
    (hes : es.toUpper ∈ EventTypes) :
    ModelFactoryInstance.construct s = ⟨[], [], [], []⟩ ∧
    listModels (ModelFactoryInstance.construct s) = [] ∧
    createModel (ModelFactoryInstance.construct s) (.str ns) args n =
      ([], .error "unregistered model") ∧
    createEvent (ModelFactoryInstance.construct s) (.str es) (.str ns) args n =
      ([], .error "unregistered model event") := by
  refine ⟨rfl, rfl, ?_, ?_⟩
  · rw [createModel]
    simp [checkModelName, ModelFactoryInstance.construct, AList.get?]
  · rw [createEvent]
    simp only [EventTypes, List.mem_cons, List.not_mem_nil, or_false] at hes
    rcases hes with h | h | h <;>
      simp [checkModelName, checkEventType, EventTypes, h,
        ModelFactoryInstance.construct, AList.get?, FactoryState.events]

/-- Claim C9 witness: constructing over the populated sample registry wipes
the `Order` registrations. -/
theorem c9_witness :
    ModelFactoryInstance.construct sampleState = ⟨[], [], [], []⟩ ∧
    listModels (ModelFactoryInstance.construct sampleState) = [] ∧
    createModel (ModelFactoryInstance.construct sampleState) (.str "Order") emptyObj 0 =
      ([], .error "unregistered model") ∧
    createEvent (ModelFactoryInstance.construct sampleState) (.str "create")
        (.str "Order") emptyObj 0 =
      ([], .error "unregistered model event") :=
  c9_constructor_resets_registry sampleState "Order" "create" emptyObj 0
    (by simp [toUpperData, Char.toUpper, EventTypes])

/-- Claim C10: on every successful `createEvent`, the pipeline-derived
bindings take precedence over whatever the registered constructor produced:
`id` and `getId` hold the freshly generated identifier (the generator's
output at the current counter, which advances by one), `modelName` and
`eventType` hold the canonical uppercase forms, `eventName`/`getEventName`
hold the canonical event name, and the frozen result also carries the
injected `generateId` function as an ordinary attribute. -/
theorem c10_event_pipeline_precedence
    (s : FactoryState) (es ms : String) (args : Obj) (n m : Nat)
    (t : List Effect) (ev : Obj)
    (h : createEvent s (.str es) (.str ms) args n = (t, .ok (ev, m))) :
    ev.frozen = true ∧
    ev.get "id" = some (.str (uuid n)) ∧
    ev.get "getId" = some (.getter (.str (uuid n))) ∧
    ev.get "modelName" = some (.str ms.toUpper) ∧
    ev.get "eventType" = some (.str es.toUpper) ∧
    ev.get "eventName" = some (.str (es.toUpper ++ ms.toUpper)) ∧
    ev.get "getEventName" = some (.getter (.str (es.toUpper ++ ms.toUpper))) ∧
    ev.get "generateId" = some (.func "uuid") ∧
    m = n + 1 := by
  obtain ⟨f, event, -, -, hmem, -, hn, rfl⟩ := createEvent_ok_inv h
  simp only [EventTypes, List.mem_cons, List.not_mem_nil, or_false] at hmem
  rcases hmem with hm | hm | hm <;>
    rw [hm] <;>
    simp [Obj.get, toLowerData, Char.toLower, hn]

/-- Claim C10 witness: a constructor that writes junk into every
pipeline-controlled field is overridden throughout. -/
theorem c10_witness :
    evJunk.frozen = true ∧
    evJunk.get "id" = some (.str (uuid 0)) ∧
    evJunk.get "getId" = some (.getter (.str (uuid 0))) ∧
    evJunk.get "modelName" = some (.str "Order".toUpper) ∧
    evJunk.get "eventType" = some (.str "create".toUpper) ∧
    evJunk.get "eventName" = some (.str ("create".toUpper ++ "Order".toUpper)) ∧
    evJunk.get "getEventName" = some (.getter (.str ("create".toUpper ++ "Order".toUpper))) ∧
    evJunk.get "generateId" = some (.func "uuid") ∧
    1 = 0 + 1 :=
  c10_event_pipeline_precedence junkState "create" "Order" emptyObj 0 1
    [.eventCtorCall "CREATE" "ORDER" emptyObj] evJunk evalCreateEventJunk
